import Mathlib

/-!
Shallow embedding of the data persistence and synchronization layer of the
directory-boilerplate application: `DataLoader` (src/utils/dataLoader.ts),
`DataWriter` (src/utils/dataWriter.ts) and the admin import handler
(src/pages/AdminPage.tsx).

Untyped JavaScript values flowing through `JSON.parse`, `localStorage` and
`fetch` are modelled by `JValue`; the typed record by the structure `Agent`.
Timestamps are passed in explicitly: `nowMs : Nat` models `Date.now()` and
`nowISO : String` models `new Date().toISOString()` at the moment of the call
(the source calls `toISOString()` more than once inside a single mutation;
the calls happen within the same tick and are modelled by one value).
-/

/-- A JSON-like JavaScript value (the result of `JSON.parse`). -/
inductive JValue where
  | null
  | bool (b : Bool)
  | num (n : Int)
  | str (s : String)
  | arr (elems : List JValue)
  | obj (fields : List (String × JValue))

/-- JavaScript property access `v[k]`; `none` models `undefined`.
`JSON.parse` keeps the last occurrence of a duplicated key, hence the
reversed search. -/
def jget (v : JValue) (k : String) : Option JValue :=
  match v with
  | .obj fields => (fields.reverse.find? (fun f => f.1 == k)).map (fun f => f.2)
  | _ => none

/-- `typeof v === 'object' && v !== null` (JavaScript arrays are objects). -/
def isObjectLike (v : JValue) : Bool :=
  match v with
  | .obj _ => true
  | .arr _ => true
  | _ => false

/-- `typeof v === 'string'` for a property access result. -/
def isStringProp (o : Option JValue) : Bool :=
  match o with
  | some (.str _) => true
  | _ => false

/-- `Array.isArray(v)` for a property access result. -/
def isArrayProp (o : Option JValue) : Bool :=
  match o with
  | some (.arr _) => true
  | _ => false

/-- `typeof v === 'boolean'` for a property access result. -/
def isBoolProp (o : Option JValue) : Bool :=
  match o with
  | some (.bool _) => true
  | _ => false

/-- The collection-level structural check.  The same code appears verbatim as
`DataLoader.isValidNavigationData` (src/unnamed/part_002, lines 63-70) and
`DataWriter.isValidNavigationData` (src/utils/dataWriter.ts, lines 278-285):
the value is a non-null object, `items` is an array and `lastUpdated` is a
string. -/
def isValidNavigationData (data : JValue) : Bool :=
  isObjectLike data &&
  isArrayProp (jget data "items") &&
  isStringProp (jget data "lastUpdated")

/-- `DataWriter.isValidItem` (src/utils/dataWriter.ts, lines 290-303): the
record-level structural check. -/
def isValidItem (item : JValue) : Bool :=
  isObjectLike item &&
  isStringProp (jget item "id") &&
  isStringProp (jget item "name") &&
  isStringProp (jget item "website") &&
  isStringProp (jget item "description") &&
  (match jget item "category" with
   | some (.arr cats) =>
     cats.all (fun cat => match cat with | .str _ => true | _ => false)
   | _ => false) &&
  isBoolProp (jget item "isOpenSource") &&
  isStringProp (jget item "lastUpdated")

/-- The outcome of `fetch(DATA_URL)` followed by `response.json()`:
an HTTP status and the parsed body. -/
structure FetchResult where
  status : Nat
  body : JValue

/-- `response.ok`: status in the range 200-299. -/
def FetchResult.ok (r : FetchResult) : Bool :=
  200 ≤ r.status && r.status ≤ 299

/-- The errors `DataLoader.loadNavigationData` can throw; the spec calls both
`DataUnavailable` and they carry the underlying cause. -/
inductive LoadError where
  | fetchFailed (status : Nat)
  | invalidStructure
deriving DecidableEq, Repr

/-- The fetch-and-validate half of `DataLoader.loadNavigationData`
(src/unnamed/part_002, lines 30-48): throw on a non-ok response, throw on an
invalid payload, otherwise return the payload. -/
def DataLoader.fetchBundled (resp : FetchResult) : Except LoadError JValue :=
  if !resp.ok then .error (.fetchFailed resp.status)
  else if !isValidNavigationData resp.body then .error .invalidStructure
  else .ok resp.body

/-- `DataLoader.loadNavigationData` (src/unnamed/part_002, lines 15-50), the
Source Reader: `overlay` is the parsed content of the `navigation_data`
local-storage slot (`none` when absent or unparseable) and `resp` the bundled
fetch outcome.  A present overlay passing the structural check is returned
immediately; otherwise the bundled dataset is fetched and validated. -/
def DataLoader.loadNavigationData (overlay : Option JValue) (resp : FetchResult) :
    Except LoadError JValue :=
  match overlay with
  | some parsedData =>
    if isValidNavigationData parsedData then .ok parsedData
    else DataLoader.fetchBundled resp
  | none => DataLoader.fetchBundled resp

/-- `DataWriter.loadFromLocalStorage` (src/utils/dataWriter.ts, lines 25-39):
return the overlay when present and structurally valid, else `null`. -/
def DataWriter.loadFromLocalStorage (overlay : Option JValue) : Option JValue :=
  match overlay with
  | some data => if isValidNavigationData data then some data else none
  | none => none

/-- `DataWriter.loadData` (src/utils/dataWriter.ts, lines 44-62): local
overlay first, then the bundled dataset, then the empty-collection default
`{items: [], lastUpdated: now}` if even the fetch fails. -/
def DataWriter.loadData (overlay : Option JValue) (resp : FetchResult)
    (nowISO : String) : JValue :=
  match DataWriter.loadFromLocalStorage overlay with
  | some localData => localData
  | none =>
    match DataLoader.loadNavigationData overlay resp with
    | .ok data => data
    | .error _ => .obj [("items", .arr []), ("lastUpdated", .str nowISO)]

/-- The errors `DataWriter.uploadFromJsonFile` rejects with; the spec calls
them `MalformedFile` (JSON.parse threw) and `InvalidSchema`. -/
inductive UploadError where
  | malformedFile
  | invalidStructure
deriving DecidableEq, Repr

/-- `DataWriter.uploadFromJsonFile` (src/utils/dataWriter.ts, lines 89-113):
`parsed` is the outcome of `JSON.parse` on the file text (`Except.error`
models a parse exception).  The parsed value is accepted whenever it passes
the collection-level structural check; its items are not inspected. -/
def DataWriter.uploadFromJsonFile (parsed : Except Unit JValue) :
    Except UploadError JValue :=
  match parsed with
  | .error _ => .error .malformedFile
  | .ok data =>
    if isValidNavigationData data then .ok data
    else .error .invalidStructure

/-- `handleImportData` (src/pages/AdminPage.tsx, lines 151-166): on a
successful upload only `setItems(data.items)` runs.  The result is the pair
(local-storage overlay after the handler, the value passed to `setItems` if
any); nothing in the handler writes to local storage, so the first component
is always the incoming overlay. -/
def AdminPage.handleImportData (overlay : Option JValue)
    (parsed : Except Unit JValue) : Option JValue × Option JValue :=
  match DataWriter.uploadFromJsonFile parsed with
  | .ok data => (overlay, some data)
  | .error _ => (overlay, none)

/-- The derived display asset returned by `generateDefaultLogo`:
`{bgColor, text}` (the spec's `{backgroundColor, initials}`). -/
structure Logo where
  bgColor : String
  text : String
deriving DecidableEq, Repr

/-- The typed record (`Agent` of src/types/agent.ts; that file is not part of
the provided sources, so the fields follow the data model of the spec: the
required strings, the category list, the boolean, the derived logo and the
system timestamp.  The optional free-form strings `github`/`twitter`/
`discord` carry no invariants and are not modelled). -/
structure Agent where
  id : String
  name : String
  website : String
  description : String
  category : List String
  isOpenSource : Bool
  logo : Logo
  lastUpdated : String
deriving DecidableEq, Repr

/-- The typed collection (`NavigationData` of src/unnamed/part_002). -/
structure NavigationData where
  items : List Agent
  lastUpdated : String
deriving DecidableEq, Repr

/-- The mutation input `Omit<Agent, 'id' | 'logo' | 'lastUpdated'>`. -/
structure AgentInput where
  name : String
  website : String
  description : String
  category : List String
  isOpenSource : Bool
deriving DecidableEq, Repr

/-- Structural serialization of a logo (what `JSON.stringify` produces). -/
def encodeLogo (l : Logo) : JValue :=
  .obj [("bgColor", .str l.bgColor), ("text", .str l.text)]

/-- Structural serialization of a typed record. -/
def encodeAgent (a : Agent) : JValue :=
  .obj [("id", .str a.id), ("name", .str a.name), ("website", .str a.website),
        ("description", .str a.description),
        ("category", .arr (a.category.map JValue.str)),
        ("isOpenSource", .bool a.isOpenSource),
        ("logo", encodeLogo a.logo),
        ("lastUpdated", .str a.lastUpdated)]

/-- Structural serialization of the full collection.  `export` =
`DataWriter.downloadAsJsonFile` (src/utils/dataWriter.ts, lines 67-84) writes
`JSON.stringify(data, null, 2)` to the download; since `JSON.parse` of that
text recovers the same structural value, the exported bytes are modelled by
this `JValue`. -/
def encodeNavigationData (d : NavigationData) : JValue :=
  .obj [("items", .arr (d.items.map encodeAgent)),
        ("lastUpdated", .str d.lastUpdated)]

/-- Read a string property back. -/
def decodeString (o : Option JValue) : Option String :=
  match o with
  | some (.str s) => some s
  | _ => none

/-- Read an array of strings back. -/
def decodeStrings : List JValue → Option (List String)
  | [] => some []
  | .str s :: rest => (decodeStrings rest).map (fun t => s :: t)
  | _ => none

/-- Read a logo back. -/
def decodeLogo (v : JValue) : Option Logo :=
  match decodeString (jget v "bgColor"), decodeString (jget v "text") with
  | some b, some t => some { bgColor := b, text := t }
  | _, _ => none

/-- Read a typed record back from its structural serialization. -/
def decodeAgent (v : JValue) : Option Agent :=
  match decodeString (jget v "id"), decodeString (jget v "name"),
        decodeString (jget v "website"), decodeString (jget v "description"),
        (match jget v "category" with
         | some (.arr cs) => decodeStrings cs
         | _ => none),
        (match jget v "isOpenSource" with
         | some (.bool b) => some b
         | _ => none),
        (match jget v "logo" with
         | some lv => decodeLogo lv
         | none => none),
        decodeString (jget v "lastUpdated") with
  | some i, some n, some w, some ds, some cs, some os, some lg, some lu =>
    some { id := i, name := n, website := w, description := ds, category := cs,
           isOpenSource := os, logo := lg, lastUpdated := lu }
  | _, _, _, _, _, _, _, _ => none

/-- Read a list of typed records back. -/
def decodeAgents : List JValue → Option (List Agent)
  | [] => some []
  | v :: rest =>
    match decodeAgent v, decodeAgents rest with
    | some a, some as2 => some (a :: as2)
    | _, _ => none

/-- Read a typed collection back from its structural serialization. -/
def decodeNavigationData (v : JValue) : Option NavigationData :=
  match (match jget v "items" with
         | some (.arr vs) => decodeAgents vs
         | _ => none),
        decodeString (jget v "lastUpdated") with
  | some its, some lu => some { items := its, lastUpdated := lu }
  | _, _ => none

/-- The ASCII characters matched by the JavaScript regex class `\s`
(space, tab, line feed, carriage return, vertical tab, form feed; the
non-ASCII JavaScript space characters do not occur in this development). -/
def isJsSpace (c : Char) : Bool :=
  c = ' ' || c = '\t' || c = '\n' || c = '\r' || c = '\x0b' || c = '\x0c'

/-- `replace(/\s+/g, '-')` over the character list: each maximal run of
whitespace becomes a single hyphen.  `prevWs` records whether the previous
character belonged to a whitespace run. -/
def collapseSpacesAux (prevWs : Bool) : List Char → List Char
  | [] => []
  | c :: cs =>
    if isJsSpace c then
      if prevWs then collapseSpacesAux true cs
      else '-' :: collapseSpacesAux true cs
    else c :: collapseSpacesAux false cs

/-- The characters kept by `replace(/[^a-z0-9-]/g, '')`. -/
def isSlugChar (c : Char) : Bool :=
  ('a' ≤ c && c ≤ 'z') || ('0' ≤ c && c ≤ '9') || c = '-'

/-- Digit characters of `Number.prototype.toString(36)`:
`0`-`9` then `a`-`z`. -/
def base36Char (n : Nat) : Char :=
  if n < 10 then Char.ofNat (48 + n) else Char.ofNat (87 + n)

/-- Big-endian base-36 digit list of a positive number; the first argument is
fuel (the number itself suffices, since `n / 36 < n` for `0 < n`). -/
def toBase36Aux : Nat → Nat → List Char
  | 0, _ => []
  | _ + 1, 0 => []
  | fuel + 1, n + 1 => toBase36Aux fuel ((n + 1) / 36) ++ [base36Char ((n + 1) % 36)]

/-- `Number.prototype.toString(36)` for a natural number. -/
def toBase36 (n : Nat) : String :=
  if n = 0 then "0" else String.mk (toBase36Aux n n)

/-- `DataWriter.generateId` (src/utils/dataWriter.ts, lines 118-120):
`name.toLowerCase().replace(/\s+/g, '-').replace(/[^a-z0-9-]/g, '') + '-' +
Date.now().toString(36)`.  `Char.toLower` agrees with `toLowerCase` on the
ASCII range used here. -/
def DataWriter.generateId (name : String) (nowMs : Nat) : String :=
  String.mk ((collapseSpacesAux false (name.data.map Char.toLower)).filter isSlugChar)
    ++ "-" ++ toBase36 nowMs

/-- `ToInt32` coercion of JavaScript bitwise operators. -/
def toInt32 (n : Int) : Int :=
  let m := n % 4294967296
  if m < 2147483648 then m else m - 4294967296

/-- One step of the loop in `DataWriter.stringToColor`
(src/utils/dataWriter.ts, lines 125-136):
`hash = str.charCodeAt(i) + ((hash << 5) - hash)`, where `<<` coerces its
operand and result to a 32-bit signed integer. -/
def hashStep (hash : Int) (c : Char) : Int :=
  (c.toNat : Int) + (toInt32 (toInt32 hash * 32) - hash)

/-- The hash accumulated over the characters of the string. -/
def stringHash (s : String) : Int :=
  s.data.foldl hashStep 0

/-- `(hash >> (i * 8)) & 0xFF`: arithmetic shift of the 32-bit value is floor
division by a power of two, and masking the low byte is `% 256`. -/
def colorByte (hash : Int) (i : Nat) : Nat :=
  (Int.fdiv (toInt32 hash) (2 ^ (i * 8)) % 256).toNat

/-- Lowercase hexadecimal digit of `Number.prototype.toString(16)`. -/
def toHexDigit (n : Nat) : Char :=
  if n < 10 then Char.ofNat (48 + n) else Char.ofNat (87 + n)

/-- `('00' + value.toString(16)).substr(-2)` for a byte value. -/
def toHex2 (n : Nat) : String :=
  String.mk [toHexDigit (n / 16 % 16), toHexDigit (n % 16)]

/-- `DataWriter.stringToColor` (src/utils/dataWriter.ts, lines 125-136). -/
def DataWriter.stringToColor (str : String) : String :=
  "#" ++ toHex2 (colorByte (stringHash str) 0)
      ++ toHex2 (colorByte (stringHash str) 1)
      ++ toHex2 (colorByte (stringHash str) 2)

/-- JavaScript `String.prototype.split` with a single-character separator,
over character lists: `split(' ')` of the empty string is `[""]`, adjacent
separators produce empty pieces. -/
def splitChar (sep : Char) : List Char → List (List Char)
  | [] => [[]]
  | c :: cs =>
    if c = sep then [] :: splitChar sep cs
    else
      match splitChar sep cs with
      | [] => [[c]]
      | w :: ws => (c :: w) :: ws

/-- `DataWriter.getInitials` (src/utils/dataWriter.ts, lines 141-143):
`name.split(' ').map(n => n[0]).join('').toUpperCase().slice(0, 2)`.
`n[0]` of an empty piece is `undefined`, which `join` renders as the empty
string, hence the `filterMap`; uppercasing the joined string and then taking
two characters equals taking two characters of the charwise-uppercased
list. -/
def DataWriter.getInitials (name : String) : String :=
  String.mk ((((splitChar ' ' name.data).filterMap List.head?).map
    Char.toUpper).take 2)

/-- `DataWriter.generateDefaultLogo` (src/utils/dataWriter.ts, lines 148-153). -/
def DataWriter.generateDefaultLogo (name : String) : Logo :=
  { bgColor := DataWriter.stringToColor name, text := DataWriter.getInitials name }

/-- The errors thrown by the mutation operations; the spec calls them
`DuplicateId` and `NotFound`, both carrying the offending id. -/
inductive DWError where
  | duplicateId (id : String)
  | notFound (id : String)
deriving DecidableEq, Repr

/-- The `newItem` built inside `DataWriter.addItem`
(src/utils/dataWriter.ts, lines 170-175): the input fields plus the generated
id, the derived logo and the current timestamp. -/
def DataWriter.newAgent (itemData : AgentInput) (nowMs : Nat) (nowISO : String) :
    Agent :=
  { id := DataWriter.generateId itemData.name nowMs,
    name := itemData.name,
    website := itemData.website,
    description := itemData.description,
    category := itemData.category,
    isOpenSource := itemData.isOpenSource,
    logo := DataWriter.generateDefaultLogo itemData.name,
    lastUpdated := nowISO }

/-- `DataWriter.addItem` (src/utils/dataWriter.ts, lines 158-197) acting on
the resolved current collection: throw `DuplicateId` when some existing item
carries the generated id, otherwise append the new item and bump the
collection timestamp.  The successful value is the `updatedData` the source
passes to `saveToLocalStorage` (the source's return value is its `.items`). -/
def DataWriter.addItem (itemData : AgentInput) (nowMs : Nat) (nowISO : String)
    (currentData : NavigationData) : Except DWError NavigationData :=
  let id := DataWriter.generateId itemData.name nowMs
  let newItem := DataWriter.newAgent itemData nowMs nowISO
  if currentData.items.any (fun existingItem => existingItem.id == id) then
    .error (.duplicateId id)
  else
    .ok { items := currentData.items ++ [newItem], lastUpdated := nowISO }

/-- The `updatedItem` built inside `DataWriter.updateItem`
(src/utils/dataWriter.ts, lines 215-219):
`{...existingItem, ...updatedItemData, lastUpdated: now}` — the input fields
overwrite everything except `id` and `logo`, which the input does not carry. -/
def DataWriter.mergeAgent (existingItem : Agent) (updatedItemData : AgentInput)
    (nowISO : String) : Agent :=
  { id := existingItem.id,
    name := updatedItemData.name,
    website := updatedItemData.website,
    description := updatedItemData.description,
    category := updatedItemData.category,
    isOpenSource := updatedItemData.isOpenSource,
    logo := existingItem.logo,
    lastUpdated := nowISO }

/-- Replace the first item whose id matches, as `findIndex` followed by a
copy with the found index overwritten does; `none` when no item matches
(`findIndex` returned `-1`). -/
def DataWriter.updateFirst (itemId : String) (updatedItemData : AgentInput)
    (nowISO : String) : List Agent → Option (List Agent)
  | [] => none
  | item :: rest =>
    if item.id == itemId then
      some (DataWriter.mergeAgent item updatedItemData nowISO :: rest)
    else
      (DataWriter.updateFirst itemId updatedItemData nowISO rest).map
        (fun updated => item :: updated)

/-- `DataWriter.updateItem` (src/utils/dataWriter.ts, lines 202-240) acting
on the resolved current collection: throw `NotFound` when no item carries the
id, otherwise replace the first matching item by the merge and bump the
collection timestamp. -/
def DataWriter.updateItem (itemId : String) (updatedItemData : AgentInput)
    (nowISO : String) (currentData : NavigationData) :
    Except DWError NavigationData :=
  match DataWriter.updateFirst itemId updatedItemData nowISO currentData.items with
  | none => .error (.notFound itemId)
  | some updatedItems => .ok { items := updatedItems, lastUpdated := nowISO }

/-- `DataWriter.deleteItem` (src/utils/dataWriter.ts, lines 245-273) acting
on the resolved current collection: filter out every item carrying the id,
throw `NotFound` when the length did not change, otherwise keep the filtered
items and bump the collection timestamp. -/
def DataWriter.deleteItem (itemId : String) (nowISO : String)
    (currentData : NavigationData) : Except DWError NavigationData :=
  let updatedItems := currentData.items.filter (fun item => item.id != itemId)
  if updatedItems.length = currentData.items.length then
    .error (.notFound itemId)
  else
    .ok { items := updatedItems, lastUpdated := nowISO }

/-- The collection held by the overlay after a mutation attempt: the source
reaches `saveToLocalStorage(updatedData)` only on success, so on an error the
previously committed collection is untouched. -/
def persistedAfter (currentData : NavigationData)
    (result : Except DWError NavigationData) : NavigationData :=
  match result with
  | .ok updatedData => updatedData
  | .error _ => currentData

/-- The slug of the claim text, written independently of `generateId`: the
name lower-cased, each maximal run of whitespace replaced by a single hyphen
(recursion via `dropWhile` over the rest of the run), and every character
other than a lowercase letter, digit or hyphen stripped. -/
def collapseRunsSpec : List Char → List Char
  | [] => []
  | c :: cs =>
    if isJsSpace c then '-' :: collapseRunsSpec (cs.dropWhile isJsSpace)
    else c :: collapseRunsSpec cs
termination_by l => l.length
decreasing_by
  all_goals simp only [List.length_cons]
  · have h : (cs.dropWhile isJsSpace).length ≤ cs.length := by
      induction cs with
      | nil => simp
      | cons a as ih =>
        simp only [List.dropWhile]
        by_cases hp : isJsSpace a
        · simp only [hp, if_true]
          exact Nat.le_trans ih (Nat.le_succ _)
        · simp [hp]
    omega
  · omega

/-- The claim's description of the generated slug. -/
def specSlug (name : String) : String :=
  String.mk ((collapseRunsSpec (name.data.map Char.toLower)).filter isSlugChar)

/-- The claim's description of the initials: first letters of up to the first
two (nonempty) space-separated words, upper-cased. -/
def specInitials (name : String) : String :=
  String.mk ((((splitChar ' ' name.data).filter (fun w => w ≠ [])).take 2).filterMap
    (fun w => w.head?.map Char.toUpper))

/-- The create input of the concrete scenario of the spec. -/
def echoInput : AgentInput :=
  { name := "Echo", website := "https://echo.ai", description := "desc",
    category := ["chatbots"], isOpenSource := true }

/-- A structurally valid overlay collection used in concrete instances. -/
def sampleOverlayOld : JValue :=
  .obj [("items", .arr []), ("lastUpdated", .str "2024-01-01T00:00:00.000Z")]

/-- A structurally valid imported collection, different from
`sampleOverlayOld`. -/
def sampleImported : JValue :=
  .obj [("items", .arr []), ("lastUpdated", .str "2025-06-30T00:00:00.000Z")]

/-- A structurally valid collection whose single item is not a valid record. -/
def badImport : JValue :=
  .obj [("items", .arr [.num 42]), ("lastUpdated", .str "x")]

/-- A concrete record: the Echo input created at `Date.now() = 0`
(its generated id is `echo-0`). -/
def sampleAgent : Agent :=
  DataWriter.newAgent echoInput 0 "2024-01-01T00:00:00.000Z"

/-- Unfolding lemma for `collapseRunsSpec` on a cons cell. -/
theorem collapseRunsSpec_cons (c : Char) (cs : List Char) :
    collapseRunsSpec (c :: cs) =
    if isJsSpace c then '-' :: collapseRunsSpec (cs.dropWhile isJsSpace)
    else c :: collapseRunsSpec cs := by
  rw [collapseRunsSpec.eq_def]

/-- The run-collapsing fold of `generateId` computes the run-collapsing
recursion of the claim text. -/
theorem collapseSpaces_spec (l : List Char) :
    collapseSpacesAux true l = collapseRunsSpec (l.dropWhile isJsSpace) ∧
    collapseSpacesAux false l = collapseRunsSpec l := by
  induction l with
  | nil => simp [collapseSpacesAux, collapseRunsSpec]
  | cons c cs ih =>
    by_cases h : isJsSpace c
    · simp [collapseSpacesAux, collapseRunsSpec_cons, h, ih.1]
    · simp [collapseSpacesAux, collapseRunsSpec_cons, h, ih.1, ih.2]

/-- `generateId` is the claim's slug followed by a hyphen and the base-36
timestamp. -/
theorem generateId_eq_specSlug (name : String) (nowMs : Nat) :
    DataWriter.generateId name nowMs = specSlug name ++ "-" ++ toBase36 nowMs := by
  unfold DataWriter.generateId specSlug
  rw [(collapseSpaces_spec (name.data.map Char.toLower)).2]

/-- Taking a prefix of the first letters of all nonempty pieces equals the
first letters of the corresponding prefix of nonempty pieces. -/
theorem take_filterMap_initials (n : Nat) (l : List (List Char)) :
    ((l.filterMap List.head?).map Char.toUpper).take n =
    ((l.filter (fun w => w ≠ [])).take n).filterMap
      (fun w => w.head?.map Char.toUpper) := by
  induction l generalizing n with
  | nil => simp
  | cons w ws ih =>
    cases w with
    | nil => simpa using ih n
    | cons c rest =>
      cases n with
      | zero => simp
      | succ m =>
        have h1 : ((c :: rest) :: ws).filterMap List.head? =
            c :: ws.filterMap List.head? := by
          simp [List.filterMap_cons]
        have h2 : ((c :: rest) :: ws).filter (fun w => w ≠ []) =
            (c :: rest) :: ws.filter (fun w => w ≠ []) := by
          simp
        rw [h1, h2, List.map_cons, List.take_succ_cons, List.take_succ_cons,
          List.filterMap_cons]
        simp only [List.head?_cons, Option.map_some]
        exact congrArg (List.cons (Char.toUpper c)) (ih m)

/-- `getInitials` computes the claim's description of the initials. -/
theorem getInitials_eq_specInitials (name : String) :
    DataWriter.getInitials name = specInitials name :=
  congrArg String.mk (take_filterMap_initials 2 (splitChar ' ' name.data))

/-- Decoding is left inverse to encoding on string lists. -/
theorem decodeStrings_map (cs : List String) :
    decodeStrings (cs.map JValue.str) = some cs := by
  induction cs with
  | nil => rfl
  | cons c rest ih => simp [decodeStrings, ih]

/-- Decoding is left inverse to encoding on records. -/
theorem decodeAgent_encodeAgent (a : Agent) : decodeAgent (encodeAgent a) = some a := by
  have h1 : jget (encodeAgent a) "id" = some (.str a.id) := rfl
  have h2 : jget (encodeAgent a) "name" = some (.str a.name) := rfl
  have h3 : jget (encodeAgent a) "website" = some (.str a.website) := rfl
  have h4 : jget (encodeAgent a) "description" = some (.str a.description) := rfl
  have h5 : jget (encodeAgent a) "category" = some (.arr (a.category.map JValue.str)) := rfl
  have h6 : jget (encodeAgent a) "isOpenSource" = some (.bool a.isOpenSource) := rfl
  have h7 : jget (encodeAgent a) "logo" = some (encodeLogo a.logo) := rfl
  have h8 : jget (encodeAgent a) "lastUpdated" = some (.str a.lastUpdated) := rfl
  have hl : decodeLogo (encodeLogo a.logo) = some a.logo := rfl
  simp [decodeAgent, h1, h2, h3, h4, h5, h6, h7, h8, hl, decodeString, decodeStrings_map]

/-- Decoding is left inverse to encoding on record lists. -/
theorem decodeAgents_map (l : List Agent) :
    decodeAgents (l.map encodeAgent) = some l := by
  induction l with
  | nil => rfl
  | cons a rest ih => simp [decodeAgents, decodeAgent_encodeAgent, ih]

/-- Decoding is left inverse to encoding on collections. -/
theorem decodeNavigationData_encode (d : NavigationData) :
    decodeNavigationData (encodeNavigationData d) = some d := by
  have hi : jget (encodeNavigationData d) "items" =
      some (.arr (d.items.map encodeAgent)) := rfl
  have hu : jget (encodeNavigationData d) "lastUpdated" =
      some (.str d.lastUpdated) := rfl
  simp [decodeNavigationData, hi, hu, decodeAgents_map, decodeString]

/-- The structural serialization of any typed collection passes the
collection-level structural check. -/
theorem encode_isValid (d : NavigationData) :
    isValidNavigationData (encodeNavigationData d) = true := rfl

/-- `updateFirst` finds nothing when no item carries the id. -/
theorem updateFirst_none (itemId : String) (input : AgentInput) (iso : String)
    (l : List Agent) (h : ∀ b ∈ l, b.id ≠ itemId) :
    DataWriter.updateFirst itemId input iso l = none := by
  induction l with
  | nil => rfl
  | cons a rest ih =>
    have hb : (a.id == itemId) = false := beq_eq_false_iff_ne.mpr (h a (by simp))
    simp [DataWriter.updateFirst, hb, ih (fun b hbm => h b (by simp [hbm]))]

/-- `updateFirst` replaces exactly the first matching item. -/
theorem updateFirst_found (itemId : String) (input : AgentInput) (iso : String)
    (pre : List Agent) (a : Agent) (post : List Agent)
    (hpre : ∀ b ∈ pre, b.id ≠ itemId) (ha : a.id = itemId) :
    DataWriter.updateFirst itemId input iso (pre ++ a :: post) =
      some (pre ++ DataWriter.mergeAgent a input iso :: post) := by
  induction pre with
  | nil => simp [DataWriter.updateFirst, ha]
  | cons b rest ih =>
    have hb : (b.id == itemId) = false := beq_eq_false_iff_ne.mpr (hpre b (by simp))
    have ih2 := ih (fun x hx => hpre x (by simp [hx]))
    simp [DataWriter.updateFirst, hb, ih2]

/-- The delete filter keeps a list in which no item carries the id. -/
theorem filter_keep_of_ne (itemId : String) (l : List Agent)
    (h : ∀ b ∈ l, b.id ≠ itemId) :
    l.filter (fun item => item.id != itemId) = l :=
  List.filter_eq_self.mpr (fun b hb => by simp [bne_iff_ne]; exact h b hb)

/-- The delete filter removes exactly the one matching item when every other
item carries a different id. -/
theorem filter_delete_decomp (itemId : String) (pre post : List Agent) (a : Agent)
    (hpre : ∀ b ∈ pre, b.id ≠ itemId) (hpost : ∀ b ∈ post, b.id ≠ itemId)
    (ha : a.id = itemId) :
    (pre ++ a :: post).filter (fun item => item.id != itemId) = pre ++ post := by
  have hfa : (a.id != itemId) = false := by simp [ha]
  rw [List.filter_append, List.filter_cons]
  simp [hfa, filter_keep_of_ne itemId pre hpre, filter_keep_of_ne itemId post hpost]

/-- Kept items plus matching items partition the length. -/
theorem filter_bne_length (itemId : String) (l : List Agent) :
    (l.filter (fun item => item.id != itemId)).length +
      l.countP (fun item => item.id == itemId) = l.length := by
  induction l with
  | nil => rfl
  | cons a rest ih =>
    by_cases h : a.id = itemId
    · have hb : (a.id == itemId) = true := by simp [h]
      have hf : (a.id != itemId) = false := by simp [bne, hb]
      simp [List.filter_cons, List.countP_cons, hb, hf]
      omega
    · have hb : (a.id == itemId) = false := beq_eq_false_iff_ne.mpr h
      have hf : (a.id != itemId) = true := by simp [bne, hb]
      simp [List.filter_cons, List.countP_cons, hb, hf]
      omega

/-- Inversion of a successful `addItem`: the generated id was fresh and the
result appends exactly the new item. -/
theorem addItem_ok {input : AgentInput} {t : Nat} {iso : String}
    {d : NavigationData} {r : NavigationData}
    (h : DataWriter.addItem input t iso d = Except.ok r) :
    d.items.any (fun e => e.id == DataWriter.generateId input.name t) = false ∧
    r = { items := d.items ++ [DataWriter.newAgent input t iso],
          lastUpdated := iso } := by
  by_cases hc : d.items.any (fun e => e.id == DataWriter.generateId input.name t) = true
  · simp [DataWriter.addItem, hc] at h
  · have hc2 : d.items.any (fun e => e.id == DataWriter.generateId input.name t) = false := by
      simpa using hc
    refine ⟨hc2, ?_⟩
    simp [DataWriter.addItem, hc2] at h
    exact h.symm

/-- C1: Source Reader precedence — `resolveCollection`
(`DataLoader.loadNavigationData`) first reads the local overlay; whenever the
overlay is present and passes the collection-level structural check, the
overlay content is returned and the result does not depend on the bundled
fetch outcome (so repeated calls keep returning the overlay even if the
bundled dataset changes); otherwise the bundled dataset is fetched, and a
non-success status or an invalid payload yields an error carrying the
underlying cause. -/
theorem c1_source_reader_precedence (v : JValue) (overlay : Option JValue)
    (resp resp2 : FetchResult) :
    (isValidNavigationData v = true →
      DataLoader.loadNavigationData (some v) resp = Except.ok v ∧
      DataLoader.loadNavigationData (some v) resp =
        DataLoader.loadNavigationData (some v) resp2) ∧
    ((∀ w, overlay = some w → isValidNavigationData w = false) →
      DataLoader.loadNavigationData overlay resp = DataLoader.fetchBundled resp) ∧
    (resp.ok = false →
      DataLoader.fetchBundled resp =
        Except.error (LoadError.fetchFailed resp.status)) ∧
    (resp.ok = true → isValidNavigationData resp.body = false →
      DataLoader.fetchBundled resp = Except.error LoadError.invalidStructure) := by
  refine ⟨?_, ?_, ?_, ?_⟩
  · intro hv
    constructor <;> simp [DataLoader.loadNavigationData, hv]
  · intro hov
    cases overlay with
    | none => rfl
    | some w =>
      have hw := hov w rfl
      simp [DataLoader.loadNavigationData, hw]
  · intro hok
    simp [DataLoader.fetchBundled, hok]
  · intro hok hbad
    simp [DataLoader.fetchBundled, hok, hbad]

/-- Witness for C1 at concrete inputs: a valid overlay shadows both a failed
and a changed bundled fetch; an invalid overlay falls through to the fetch;
status 500 and an invalid payload produce the two errors. -/
theorem c1_witness :
    (DataLoader.loadNavigationData (some sampleOverlayOld) ⟨500, .null⟩ =
      Except.ok sampleOverlayOld ∧
     DataLoader.loadNavigationData (some sampleOverlayOld) ⟨500, .null⟩ =
      DataLoader.loadNavigationData (some sampleOverlayOld) ⟨200, sampleImported⟩) ∧
    (DataLoader.loadNavigationData (some (JValue.str "bad")) ⟨500, .null⟩ =
      DataLoader.fetchBundled ⟨500, .null⟩) ∧
    DataLoader.fetchBundled ⟨500, .null⟩ =
      Except.error (LoadError.fetchFailed 500) ∧
    DataLoader.fetchBundled ⟨200, .null⟩ =
      Except.error LoadError.invalidStructure := by
  refine ⟨(c1_source_reader_precedence sampleOverlayOld none ⟨500, .null⟩
      ⟨200, sampleImported⟩).1 rfl, ?_, ?_, ?_⟩
  · exact (c1_source_reader_precedence .null (some (JValue.str "bad")) ⟨500, .null⟩
      ⟨200, sampleImported⟩).2.1 (fun w hw => by cases hw; rfl)
  · exact (c1_source_reader_precedence .null none ⟨500, .null⟩ ⟨500, .null⟩).2.2.1 rfl
  · exact (c1_source_reader_precedence .null none ⟨200, .null⟩ ⟨200, .null⟩).2.2.2 rfl rfl

/-- C8: mutation fallback — the read step shared by every mutation
(`DataWriter.loadData`) resolves the current authoritative state as the local
overlay if present and valid, else the fetched bundled dataset, else the
empty collection with a fresh timestamp; `loadData` is total (it never
throws), and a create on the fallback empty collection succeeds, so no
mutation fails solely because neither data source was loadable. -/
theorem c8_mutation_fallback (overlay : Option JValue) (v : JValue)
    (resp : FetchResult) (nowISO : String) :
    (isValidNavigationData v = true →
      DataWriter.loadData (some v) resp nowISO = v) ∧
    ((∀ w, overlay = some w → isValidNavigationData w = false) → resp.ok = true →
      isValidNavigationData resp.body = true →
      DataWriter.loadData overlay resp nowISO = resp.body) ∧
    ((∀ w, overlay = some w → isValidNavigationData w = false) →
      (resp.ok = false ∨ isValidNavigationData resp.body = false) →
      DataWriter.loadData overlay resp nowISO =
        JValue.obj [("items", .arr []), ("lastUpdated", .str nowISO)]) ∧
    (∀ (input : AgentInput) (t : Nat) (iso2 : String),
      ∃ r, DataWriter.addItem input t iso2 { items := [], lastUpdated := nowISO } =
        Except.ok r) := by
  refine ⟨?_, ?_, ?_, ?_⟩
  · intro hv
    simp [DataWriter.loadData, DataWriter.loadFromLocalStorage, hv]
  · intro hov hok hbody
    cases overlay with
    | none =>
      simp [DataWriter.loadData, DataWriter.loadFromLocalStorage,
        DataLoader.loadNavigationData, DataLoader.fetchBundled, hok, hbody]
    | some w =>
      have hw := hov w rfl
      simp [DataWriter.loadData, DataWriter.loadFromLocalStorage,
        DataLoader.loadNavigationData, DataLoader.fetchBundled, hw, hok, hbody]
  · intro hov hfail
    have hfetch : DataLoader.fetchBundled resp =
        (match resp.ok, isValidNavigationData resp.body with
         | false, _ => Except.error (LoadError.fetchFailed resp.status)
         | true, false => Except.error LoadError.invalidStructure
         | true, true => Except.ok resp.body) := by
      cases hok : resp.ok <;> cases hbody : isValidNavigationData resp.body <;>
        simp [DataLoader.fetchBundled, hok, hbody]
    cases overlay with
    | none =>
      cases hok : resp.ok with
      | false =>
        simp [DataWriter.loadData, DataWriter.loadFromLocalStorage,
          DataLoader.loadNavigationData, DataLoader.fetchBundled, hok]
      | true =>
        have hbody : isValidNavigationData resp.body = false := by
          rcases hfail with h | h
          · rw [hok] at h; cases h
          · exact h
        simp [DataWriter.loadData, DataWriter.loadFromLocalStorage,
          DataLoader.loadNavigationData, DataLoader.fetchBundled, hok, hbody]
    | some w =>
      have hw := hov w rfl
      cases hok : resp.ok with
      | false =>
        simp [DataWriter.loadData, DataWriter.loadFromLocalStorage,
          DataLoader.loadNavigationData, DataLoader.fetchBundled, hw, hok]
      | true =>
        have hbody : isValidNavigationData resp.body = false := by
          rcases hfail with h | h
          · rw [hok] at h; cases h
          · exact h
        simp [DataWriter.loadData, DataWriter.loadFromLocalStorage,
          DataLoader.loadNavigationData, DataLoader.fetchBundled, hw, hok, hbody]
  · intro input t iso2
    exact ⟨_, rfl⟩

/-- Witness for C8 at concrete inputs: a valid overlay wins over a failed
fetch, an absent overlay yields the fetched body, and with both sources
unavailable the empty collection with the fresh timestamp is used and a
create on it succeeds. -/
theorem c8_witness :
    DataWriter.loadData (some sampleOverlayOld) ⟨500, .null⟩ "T" = sampleOverlayOld ∧
    DataWriter.loadData none ⟨200, sampleImported⟩ "T" = sampleImported ∧
    DataWriter.loadData none ⟨500, .null⟩ "T" =
      JValue.obj [("items", .arr []), ("lastUpdated", .str "T")] ∧
    (∃ r, DataWriter.addItem echoInput 5 "U" { items := [], lastUpdated := "T" } =
      Except.ok r) := by
  refine ⟨(c8_mutation_fallback (some sampleOverlayOld) sampleOverlayOld
      ⟨500, .null⟩ "T").1 rfl, ?_, ?_,
    (c8_mutation_fallback none .null ⟨500, .null⟩ "T").2.2.2 echoInput 5 "U"⟩
  · exact (c8_mutation_fallback none .null ⟨200, sampleImported⟩ "T").2.1
      (fun w hw => by cases hw) rfl rfl
  · exact (c8_mutation_fallback none .null ⟨500, .null⟩ "T").2.2.1
      (fun w hw => by cases hw) (Or.inl rfl)

/-- C2: create contract — the generated id is the name lower-cased with
whitespace runs collapsed to single hyphens and other characters stripped,
suffixed by a hyphen and the base-36 timestamp; create fails with
`DuplicateId` when that id already occurs (never overwriting) and otherwise
appends exactly one record; creating the Echo input on an empty collection
yields one item with id `echo-` followed by the base-36 timestamp and logo
initials (the `text` field) `E`. -/
theorem c2_create_contract (input : AgentInput) (t : Nat) (iso : String)
    (d : NavigationData) :
    DataWriter.generateId input.name t = specSlug input.name ++ "-" ++ toBase36 t ∧
    (d.items.any (fun e => e.id == DataWriter.generateId input.name t) = true →
      DataWriter.addItem input t iso d =
        Except.error (DWError.duplicateId (DataWriter.generateId input.name t))) ∧
    (d.items.any (fun e => e.id == DataWriter.generateId input.name t) = false →
      DataWriter.addItem input t iso d =
        Except.ok { items := d.items ++ [DataWriter.newAgent input t iso],
                    lastUpdated := iso }) ∧
    DataWriter.addItem echoInput t iso { items := [], lastUpdated := iso } =
      Except.ok { items := [DataWriter.newAgent echoInput t iso],
                  lastUpdated := iso } ∧
    (DataWriter.newAgent echoInput t iso).id = "echo-" ++ toBase36 t ∧
    (DataWriter.newAgent echoInput t iso).logo.text = "E" := by
  refine ⟨generateId_eq_specSlug input.name t, ?_, ?_, rfl, rfl, rfl⟩
  · intro h
    simp [DataWriter.addItem, h]
  · intro h
    simp [DataWriter.addItem, h]

/-- Witness for C2 at concrete inputs: at `Date.now() = 1234` the Echo id is
`echo-ya`; creating against a collection already holding that id fails with
`DuplicateId`, and creating against an empty collection appends exactly that
one record. -/
theorem c2_witness :
    DataWriter.addItem echoInput 1234 "B"
      { items := [DataWriter.newAgent echoInput 1234 "A"], lastUpdated := "A" } =
      Except.error (DWError.duplicateId "echo-ya") ∧
    DataWriter.addItem echoInput 1234 "B" { items := [], lastUpdated := "A" } =
      Except.ok { items := [DataWriter.newAgent echoInput 1234 "B"],
                  lastUpdated := "B" } := by
  constructor
  · have h := (c2_create_contract echoInput 1234 "B"
      { items := [DataWriter.newAgent echoInput 1234 "A"], lastUpdated := "A" }).2.1
      (by decide)
    exact (by decide : DataWriter.generateId echoInput.name 1234 = "echo-ya") ▸ h
  · exact (c2_create_contract echoInput 1234 "B"
      { items := [], lastUpdated := "A" }).2.2.1 (by decide)

/-- C3: update contract — when no record carries the id, update fails with
`NotFound` and the persisted items are unchanged; when a record carries the
id (decomposed as the first match), the result replaces exactly that record
by the merge, which keeps its `id` and `logo`, takes every other field from
the input, and sets its `lastUpdated` (and the collection's, via the result's
`lastUpdated` field) to now, strictly increasing whenever now is later than
the record's previous timestamp. -/
theorem c3_update_contract (d : NavigationData) (itemId : String)
    (input : AgentInput) (iso : String) (pre post : List Agent) (a : Agent) :
    ((∀ b ∈ d.items, b.id ≠ itemId) →
      DataWriter.updateItem itemId input iso d =
        Except.error (DWError.notFound itemId) ∧
      persistedAfter d (DataWriter.updateItem itemId input iso d) = d) ∧
    (d.items = pre ++ a :: post → (∀ b ∈ pre, b.id ≠ itemId) → a.id = itemId →
      DataWriter.updateItem itemId input iso d =
        Except.ok { items := pre ++ DataWriter.mergeAgent a input iso :: post,
                    lastUpdated := iso } ∧
      (DataWriter.mergeAgent a input iso).id = a.id ∧
      (DataWriter.mergeAgent a input iso).logo = a.logo ∧
      (DataWriter.mergeAgent a input iso).name = input.name ∧
      (DataWriter.mergeAgent a input iso).website = input.website ∧
      (DataWriter.mergeAgent a input iso).description = input.description ∧
      (DataWriter.mergeAgent a input iso).category = input.category ∧
      (DataWriter.mergeAgent a input iso).isOpenSource = input.isOpenSource ∧
      (DataWriter.mergeAgent a input iso).lastUpdated = iso ∧
      (a.lastUpdated < iso →
        a.lastUpdated < (DataWriter.mergeAgent a input iso).lastUpdated)) := by
  constructor
  · intro hnone
    have h := updateFirst_none itemId input iso d.items hnone
    constructor
    · simp [DataWriter.updateItem, h]
    · simp [persistedAfter, DataWriter.updateItem, h]
  · intro hitems hpre ha
    have h := updateFirst_found itemId input iso pre a post hpre ha
    refine ⟨?_, rfl, rfl, rfl, rfl, rfl, rfl, rfl, rfl, fun hlt => hlt⟩
    simp [DataWriter.updateItem, hitems, h]

/-- Witness for C3 at concrete inputs: updating the id `ghost-123` on a
one-record collection fails with `NotFound` leaving the persisted collection
unchanged; updating the existing id `echo-0` replaces that record by the
merge and bumps the collection timestamp. -/
theorem c3_witness :
    (DataWriter.updateItem "ghost-123" echoInput "B"
        { items := [sampleAgent], lastUpdated := "A" } =
      Except.error (DWError.notFound "ghost-123") ∧
     persistedAfter { items := [sampleAgent], lastUpdated := "A" }
        (DataWriter.updateItem "ghost-123" echoInput "B"
          { items := [sampleAgent], lastUpdated := "A" }) =
      { items := [sampleAgent], lastUpdated := "A" }) ∧
    DataWriter.updateItem "echo-0" echoInput "B"
        { items := [sampleAgent], lastUpdated := "A" } =
      Except.ok { items := [DataWriter.mergeAgent sampleAgent echoInput "B"],
                  lastUpdated := "B" } := by
  refine ⟨(c3_update_contract { items := [sampleAgent], lastUpdated := "A" }
      "ghost-123" echoInput "B" [] [] sampleAgent).1 (by decide), ?_⟩
  exact ((c3_update_contract { items := [sampleAgent], lastUpdated := "A" }
      "echo-0" echoInput "B" [] [] sampleAgent).2 rfl (by simp) (by decide)).1

/-- C4: delete contract — on a collection in which exactly one record carries
the id (decomposed as prefix, the record, suffix, with no other match),
delete succeeds, shrinking items by exactly one and keeping all other records
in order; an immediately following second delete of the same id fails with
`NotFound` (the filter leaves the length unchanged) and leaves the persisted
items unchanged. -/
theorem c4_delete_contract (d : NavigationData) (itemId : String)
    (iso iso2 : String) (pre post : List Agent) (a : Agent) :
    d.items = pre ++ a :: post → a.id = itemId →
    (∀ b ∈ pre, b.id ≠ itemId) → (∀ b ∈ post, b.id ≠ itemId) →
    DataWriter.deleteItem itemId iso d =
      Except.ok { items := pre ++ post, lastUpdated := iso } ∧
    (pre ++ post).length + 1 = d.items.length ∧
    DataWriter.deleteItem itemId iso2 { items := pre ++ post, lastUpdated := iso } =
      Except.error (DWError.notFound itemId) ∧
    persistedAfter { items := pre ++ post, lastUpdated := iso }
        (DataWriter.deleteItem itemId iso2
          { items := pre ++ post, lastUpdated := iso }) =
      { items := pre ++ post, lastUpdated := iso } := by
  intro hitems ha hpre hpost
  have hfil : d.items.filter (fun item => item.id != itemId) = pre ++ post := by
    rw [hitems]
    exact filter_delete_decomp itemId pre post a hpre hpost ha
  have hlen : (pre ++ post).length + 1 = d.items.length := by
    rw [hitems]
    simp
    omega
  have hne : (pre ++ post).length ≠ d.items.length := by omega
  have hkeep : (pre ++ post).filter (fun item => item.id != itemId) = pre ++ post :=
    filter_keep_of_ne itemId (pre ++ post)
      (fun b hb => by rcases List.mem_append.mp hb with h | h
                      · exact hpre b h
                      · exact hpost b h)
  refine ⟨?_, hlen, ?_, ?_⟩
  · simp only [DataWriter.deleteItem, hfil]
    rw [if_neg hne]
  · simp only [DataWriter.deleteItem, hkeep]
    simp
  · simp only [persistedAfter, DataWriter.deleteItem, hkeep]
    simp

/-- Witness for C4 at concrete inputs: deleting `echo-0` from the one-record
collection succeeds leaving no items, and the immediately following second
delete of `echo-0` fails with `NotFound`. -/
theorem c4_witness :
    DataWriter.deleteItem "echo-0" "B" { items := [sampleAgent], lastUpdated := "A" } =
      Except.ok { items := [], lastUpdated := "B" } ∧
    DataWriter.deleteItem "echo-0" "C" { items := [], lastUpdated := "B" } =
      Except.error (DWError.notFound "echo-0") := by
  have h := c4_delete_contract { items := [sampleAgent], lastUpdated := "A" }
    "echo-0" "B" "C" [] [] sampleAgent rfl (by decide) (by simp) (by simp)
  exact ⟨h.1, h.2.2.1⟩

/-- C10: delete removes every record whose id matches, not only the first:
the loading and import gates never check id uniqueness (the structural
serialization of any collection, duplicate ids included, passes the
collection-level check), and on a collection holding at least two records
with the given id a single delete succeeds and shrinks items by at least
two, leaving no record with that id. -/
theorem c10_delete_removes_all (d : NavigationData) (itemId : String)
    (iso : String) :
    2 ≤ d.items.countP (fun item => item.id == itemId) →
    DataWriter.deleteItem itemId iso d =
      Except.ok { items := d.items.filter (fun item => item.id != itemId),
                  lastUpdated := iso } ∧
    (d.items.filter (fun item => item.id != itemId)).length + 2 ≤ d.items.length ∧
    (∀ b ∈ d.items.filter (fun item => item.id != itemId), b.id ≠ itemId) ∧
    isValidNavigationData (encodeNavigationData d) = true := by
  intro hcount
  have hlen := filter_bne_length itemId d.items
  have hne : (d.items.filter (fun item => item.id != itemId)).length ≠
      d.items.length := by omega
  refine ⟨?_, by omega, ?_, rfl⟩
  · simp only [DataWriter.deleteItem]
    rw [if_neg hne]
  · intro b hb
    have := (List.mem_filter.mp hb).2
    simpa [bne_iff_ne] using this

/-- Witness for C10 at concrete inputs: a collection holding the same record
twice (the gates never rejected the duplicate id) loses both copies in one
delete of `echo-0`. -/
theorem c10_witness :
    DataWriter.deleteItem "echo-0" "B"
        { items := [sampleAgent, sampleAgent], lastUpdated := "A" } =
      Except.ok { items := [], lastUpdated := "B" } ∧
    isValidNavigationData (encodeNavigationData
      { items := [sampleAgent, sampleAgent], lastUpdated := "A" }) = true := by
  have h := c10_delete_removes_all
    { items := [sampleAgent, sampleAgent], lastUpdated := "A" } "echo-0" "B"
    (by decide)
  exact ⟨h.1, h.2.2.2⟩

/-- C5: export/import round-trip — for every typed (hence structurally
valid) collection, importing the structural serialization produced by export
succeeds, and reading the accepted value back gives a collection with the
same items in order and content and the same (hence no earlier) `lastUpdated`. -/
theorem c5_export_import_roundtrip (d : NavigationData) :
    DataWriter.uploadFromJsonFile (Except.ok (encodeNavigationData d)) =
      Except.ok (encodeNavigationData d) ∧
    decodeNavigationData (encodeNavigationData d) = some d := by
  constructor
  · simp [DataWriter.uploadFromJsonFile, encode_isValid]
  · exact decodeNavigationData_encode d

/-- C6 counterexample: the claim says every record contained in data accepted
from an external source passes the record-level structural check; but the
upload path accepts `{items: [42], lastUpdated: "x"}`, whose single item `42`
fails `isValidItem` — the record-level predicate is defined and never
invoked by any load or import path. -/
theorem c6_counterexample :
    DataWriter.uploadFromJsonFile (Except.ok badImport) = Except.ok badImport ∧
    jget badImport "items" = some (JValue.arr [JValue.num 42]) ∧
    isValidItem (JValue.num 42) = false ∧
    DataWriter.loadFromLocalStorage (some badImport) = some badImport := by
  exact ⟨rfl, rfl, rfl, rfl⟩

/-- C6 amended: externally supplied data — local overlay content or an
uploaded import file — is gated only by the collection-level structural
check (`items` is an array and `lastUpdated` is a string); individual
records are never checked against the record-level predicate, so a value is
accepted from either source exactly when the collection-level check passes,
whether or not its items are valid records. -/
theorem c6_amended_collection_gate_only (v : JValue) :
    (DataWriter.uploadFromJsonFile (Except.ok v) = Except.ok v ↔
      isValidNavigationData v = true) ∧
    (DataWriter.loadFromLocalStorage (some v) = some v ↔
      isValidNavigationData v = true) := by
  constructor
  · constructor
    · intro h
      by_cases hv : isValidNavigationData v = true
      · exact hv
      · have hv2 : isValidNavigationData v = false := by simpa using hv
        simp [DataWriter.uploadFromJsonFile, hv2] at h
    · intro hv
      simp [DataWriter.uploadFromJsonFile, hv]
  · constructor
    · intro h
      by_cases hv : isValidNavigationData v = true
      · exact hv
      · have hv2 : isValidNavigationData v = false := by simpa using hv
        simp [DataWriter.loadFromLocalStorage, hv2] at h
    · intro hv
      simp [DataWriter.loadFromLocalStorage, hv]

/-- C7 counterexample: the claim says a successful import persists the
imported collection to the local overlay and a subsequent
`resolveCollection` observes it; but the import handler leaves the overlay
untouched, so the subsequent read returns the pre-import overlay content,
which differs from the imported collection. -/
theorem c7_counterexample :
    AdminPage.handleImportData (some sampleOverlayOld) (Except.ok sampleImported) =
      (some sampleOverlayOld, some sampleImported) ∧
    DataLoader.loadNavigationData
        (AdminPage.handleImportData (some sampleOverlayOld)
          (Except.ok sampleImported)).1 ⟨200, sampleImported⟩ =
      Except.ok sampleOverlayOld ∧
    sampleOverlayOld ≠ sampleImported := by
  refine ⟨rfl, rfl, ?_⟩
  intro h
  simp [sampleOverlayOld, sampleImported] at h

/-- C7 amended: after a successful import the imported collection only
replaces the in-memory UI item list; it is not persisted to the local
overlay — the pre-existing overlay content is kept unchanged, and a
subsequent `resolveCollection` observes the pre-import overlay (whenever
that overlay is valid), not the imported collection. -/
theorem c7_amended_import_not_persisted (overlay : Option JValue)
    (parsed : Except Unit JValue) (v : JValue) (resp : FetchResult)
    (w : JValue) :
    DataWriter.uploadFromJsonFile parsed = Except.ok v →
    AdminPage.handleImportData overlay parsed = (overlay, some v) ∧
    (overlay = some w → isValidNavigationData w = true →
      DataLoader.loadNavigationData (AdminPage.handleImportData overlay parsed).1
        resp = Except.ok w) := by
  intro hup
  constructor
  · simp [AdminPage.handleImportData, hup]
  · intro how hw
    simp [AdminPage.handleImportData, hup, how, DataLoader.loadNavigationData, hw]

/-- Witness for C7-amended at concrete inputs: importing `sampleImported`
over the overlay `sampleOverlayOld` leaves the overlay unchanged and the
following read still returns `sampleOverlayOld`. -/
theorem c7_witness :
    AdminPage.handleImportData (some sampleOverlayOld) (Except.ok sampleImported) =
      (some sampleOverlayOld, some sampleImported) ∧
    DataLoader.loadNavigationData
        (AdminPage.handleImportData (some sampleOverlayOld)
          (Except.ok sampleImported)).1 ⟨200, sampleImported⟩ =
      Except.ok sampleOverlayOld := by
  have h := c7_amended_import_not_persisted (some sampleOverlayOld)
    (Except.ok sampleImported) sampleImported ⟨200, sampleImported⟩
    sampleOverlayOld rfl
  exact ⟨h.1, h.2 rfl rfl⟩

/-- C9: the derived logo is a pure function of the name — any two successful
creates with the same name, at any two times and against any two collections,
append records with equal logos (color and initials), the logo being exactly
`generateDefaultLogo` of the name; and the initials equal the first letters
of up to the first two (nonempty) space-separated words of the name,
upper-cased. -/
theorem c9_logo_pure_function (input : AgentInput) (t t2 : Nat)
    (iso iso2 : String) (d d2 r r2 : NavigationData) :
    DataWriter.addItem input t iso d = Except.ok r →
    DataWriter.addItem input t2 iso2 d2 = Except.ok r2 →
    r.items = d.items ++ [DataWriter.newAgent input t iso] ∧
    r2.items = d2.items ++ [DataWriter.newAgent input t2 iso2] ∧
    (DataWriter.newAgent input t iso).logo =
      (DataWriter.newAgent input t2 iso2).logo ∧
    (DataWriter.newAgent input t iso).logo =
      DataWriter.generateDefaultLogo input.name ∧
    (DataWriter.newAgent input t iso).logo.text = specInitials input.name := by
  intro h1 h2
  refine ⟨?_, ?_, rfl, rfl, getInitials_eq_specInitials input.name⟩
  · rw [(addItem_ok h1).2]
  · rw [(addItem_ok h2).2]

/-- Witness for C9 at concrete inputs: Echo created at times 1 and 2 against
different collections gets the same logo, whose initials are the spec
initials of `Echo`. -/
theorem c9_witness :
    (DataWriter.newAgent echoInput 1 "A").logo =
      (DataWriter.newAgent echoInput 2 "B").logo ∧
    (DataWriter.newAgent echoInput 1 "A").logo.text = specInitials "Echo" := by
  have h := c9_logo_pure_function echoInput 1 2 "A" "B"
    { items := [], lastUpdated := "x" } { items := [], lastUpdated := "y" }
    { items := [DataWriter.newAgent echoInput 1 "A"], lastUpdated := "A" }
    { items := [DataWriter.newAgent echoInput 2 "B"], lastUpdated := "B" }
    rfl rfl
  exact ⟨h.2.2.1, h.2.2.2.2⟩
